import Mathlib

/-
  Shallow embedding of the PlaywrightCaptchaKrakenJS solver core
  (src/src/solver.ts, src/src/token-usage.ts, src/src/types.ts).

  Conventions:
  * JavaScript numbers are modelled as `Rat` (exact rationals) where the code
    does arithmetic on coordinates/prices, as `Nat`/`Int` for counters and
    durations.  None of the verified properties depend on IEEE-754 rounding.
  * `null`/`undefined`-able values are modelled with `Option`.
  * Asynchronous, effectful calls (page queries, subprocess stdout, wall-clock
    reads, Math.random) are modelled by explicit environment parameters; the
    control flow around them is translated statement by statement.
-/

namespace CaptchaKraken

/-- TokenUsage record from src/types.ts: per decision-service call token counts. -/
structure TokenUsage where
  input_tokens : Nat
  output_tokens : Nat
  cached_input_tokens : Option Nat
  model : String
  deriving DecidableEq

/-- ModelPricing from src/token-usage.ts. -/
structure ModelPricing where
  inputPricePerM : Rat
  outputPricePerM : Rat
  cachedInputPricePerM : Rat
  deriving DecidableEq

/-- The PRICING table of src/token-usage.ts; decimal price literals are written
as exact rationals (2.00 = 2, 0.20 = 1/5, ...). -/
def PRICING (m : String) : Option ModelPricing :=
  if m = "gemini-3-pro-preview" then some ⟨2, 12, 1/5⟩
  else if m = "gemini-3-flash-preview" then some ⟨1/2, 3, 1/20⟩
  else if m = "gemini-2.5-pro" then some ⟨5/4, 10, 1/8⟩
  else if m = "gemini-2.5-flash" then some ⟨3/10, 5/2, 3/100⟩
  else if m = "gemini-2.5-flash-preview" then some ⟨3/10, 5/2, 3/100⟩
  else if m = "gemini-2.5-flash-lite" then some ⟨1/10, 2/5, 1/100⟩
  else if m = "gemini-2.5-flash-lite-preview" then some ⟨1/10, 2/5, 1/100⟩
  else if m = "gemini-2.0-flash" then some ⟨1/10, 2/5, 1/40⟩
  else if m = "gemini-2.5-computer-use-preview-10-2025" then some ⟨5/4, 10, 1/40⟩
  else none

/-- estimateCost from src/token-usage.ts: unknown models default to the
`gemini-2.5-flash` pricing row. -/
def estimateCost (usage : TokenUsage) : Rat :=
  let pricing := match PRICING usage.model with
    | some p => p
    | none => ⟨3/10, 5/2, 3/100⟩
  let inputCost := ((usage.input_tokens : Rat) / 1000000) * pricing.inputPricePerM
  let outputCost := ((usage.output_tokens : Rat) / 1000000) * pricing.outputPricePerM
  let cachedCost := (((usage.cached_input_tokens.getD 0) : Rat) / 1000000) * pricing.cachedInputPricePerM
  inputCost + outputCost + cachedCost

/-- Shape of the object returned by aggregateTokenUsage (src/token-usage.ts). -/
structure AggregatedUsage where
  modelName : String
  inputTokens : Nat
  outputTokens : Nat
  cachedInputTokens : Nat
  estimatedCost : Rat
  deriving DecidableEq

/-- aggregateTokenUsage from src/token-usage.ts: empty input yields the zero
record with modelName "none"; otherwise a fold summing all four components,
with modelName taken from the first record. -/
def aggregateTokenUsage (usages : List TokenUsage) : AggregatedUsage :=
  match usages with
  | [] => { modelName := "none", inputTokens := 0, outputTokens := 0,
            cachedInputTokens := 0, estimatedCost := 0 }
  | u0 :: _ =>
      usages.foldl
        (fun acc usage =>
          { acc with
            inputTokens := acc.inputTokens + usage.input_tokens,
            outputTokens := acc.outputTokens + usage.output_tokens,
            cachedInputTokens := acc.cachedInputTokens + usage.cached_input_tokens.getD 0,
            estimatedCost := acc.estimatedCost + estimateCost usage })
        { modelName := u0.model, inputTokens := 0, outputTokens := 0,
          cachedInputTokens := 0, estimatedCost := 0 }

/-- JSON.stringify of an aggregated-usage object, with the fields in insertion
order as in the source record. -/
def serializeAggregated (u : AggregatedUsage) : String :=
  "\x7b\"modelName\":\"" ++ u.modelName ++ "\",\"inputTokens\":" ++ toString u.inputTokens ++
  ",\"outputTokens\":" ++ toString u.outputTokens ++
  ",\"cachedInputTokens\":" ++ toString u.cachedInputTokens ++
  ",\"estimatedCost\":" ++ toString u.estimatedCost ++ "\x7d"

/-- Substring occurrence test on character lists: needle is a prefix of some
suffix of hay. -/
def strContainsAux (needle : List Char) : List Char → Bool
  | [] => needle.isPrefixOf []
  | c :: t => needle.isPrefixOf (c :: t) || strContainsAux needle t

/-- Substring test: does `needle` occur contiguously inside `hay`. -/
def strContains (hay needle : String) : Bool :=
  strContainsAux needle.toList hay.toList

/-- Pointer position (Vector from src/types.ts), coordinates as rationals. -/
structure Vector where
  x : Rat
  y : Rat
  deriving DecidableEq

/-- Absolute bounding box of the challenge surface, as returned by boundingBox(). -/
structure ElementBox where
  x : Rat
  y : Rat
  width : Rat
  height : Rat
  deriving DecidableEq

/-- ClickAction from src/types.ts.  target_bounding_box is
[min_x, min_y, max_x, max_y], target_coordinates is [x, y], both normalized. -/
structure ClickAction where
  target_number : Option Int
  target_bounding_box : Option (Rat × Rat × Rat × Rat)
  target_coordinates : Option (Rat × Rat)
  deriving DecidableEq

/-- CaptchaAction = ClickAction | WaitAction (src/types.ts); wait durations in ms. -/
inductive CaptchaAction where
  | click (a : ClickAction)
  | wait (duration_ms : Int)
  deriving DecidableEq

/-- SolverResult = CaptchaAction | CaptchaAction[] (src/types.ts). -/
inductive SolverResult where
  | single (a : CaptchaAction)
  | list (l : List CaptchaAction)
  deriving DecidableEq

/-- The actionList normalization in solveSingle:
Array.isArray(actions) ? actions : [actions]. -/
def SolverResult.toList : SolverResult → List CaptchaAction
  | .single a => [a]
  | .list l => l

/-- CliResponse from src/types.ts. -/
structure CliResponse where
  actions : SolverResult
  token_usage : List TokenUsage
  deriving DecidableEq

/-- Classification of one stdout line of the decision-service CLI, as tested by
the parsing loop in getSolution (solver.ts lines 502-522):
  * notJson        - JSON.parse(line) threw;
  * newFormat      - parsed.actions and parsed.token_usage both defined;
  * actionArray    - Array.isArray(parsed);
  * singleMatching - parsed.action truthy and (target_bounding_box or
                     target_coordinates truthy, or action === "wait");
  * otherJson      - parsed fine but matched none of the above shapes. -/
inductive ParsedLine where
  | notJson
  | newFormat (actions : SolverResult) (token_usage : List TokenUsage)
  | actionArray (actions : List CaptchaAction)
  | singleMatching (a : CaptchaAction)
  | otherJson
  deriving DecidableEq

/-- The for-loop over stdout lines in getSolution: the new format assigns both
accumulators and breaks; an array or a matching single action overwrites the
actions accumulator and continues; unparseable or irrelevant lines are skipped. -/
def parseCliLines : List ParsedLine → SolverResult → List TokenUsage →
    SolverResult × List TokenUsage
  | [], actions, usage => (actions, usage)
  | .newFormat a u :: _, _, _ => (a, u)
  | .actionArray l :: rest, _, usage => parseCliLines rest (.list l) usage
  | .singleMatching a :: rest, _, usage => parseCliLines rest (.list [a]) usage
  | .notJson :: rest, actions, usage => parseCliLines rest actions usage
  | .otherJson :: rest, actions, usage => parseCliLines rest actions usage

/-- Whitespace trim on a character list: stdout.trim() of the source. -/
def trimChars (l : List Char) : List Char :=
  ((l.dropWhile Char.isWhitespace).reverse.dropWhile Char.isWhitespace).reverse

/-- Split a character list on newline characters: the .split of the source.
Splitting the empty list yields one empty line, as in JavaScript. -/
def splitLinesChars : List Char → List (List Char)
  | [] => [[]]
  | c :: t =>
      let r := splitLinesChars t
      if c = '\n' then [] :: r
      else
        match r with
        | [] => [[c]]
        | h :: t2 => (c :: h) :: t2

/-- The stdout-handling tail of getSolution (solver.ts lines 493-527).
`classify` stands for JSON.parse plus the shape tests on one line (see
ParsedLine); a line is its character list.  Empty (whitespace-only) stdout
throws; the throw is re-wrapped by the surrounding catch block into the
"Failed to execute" message.  Otherwise the line loop runs over
stdout.trim().split newline and its accumulators are returned; the
accumulators start as the empty action list and empty usage list. -/
def getSolution (classify : List Char → ParsedLine) (stdout stderr : String) :
    Except String CliResponse :=
  let trimmed := trimChars stdout.toList
  if trimmed = [] then
    .error ("Failed to execute captcha solver CLI: " ++
      "CLI returned empty output. Stderr: " ++ stderr)
  else
    let lines := splitLinesChars trimmed
    let (actions, usage) := parseCliLines (lines.map classify) (.list []) []
    .ok ⟨actions, usage⟩

/-- Availability of the affordances probed by the fallback branch of solveSingle
(solver.ts lines 185-221): for each probe, whether the selector found an element
that isVisible().  The four text buttons are tried in order Verify, Next,
Submit, Skip, then the reCAPTCHA verify button by id, then the hCaptcha submit
button by class. -/
structure FallbackFrame where
  verifyBtn : Bool
  nextBtn : Bool
  submitBtn : Bool
  skipBtn : Bool
  recaptchaVerifyBtn : Bool
  hcaptchaSubmitBtn : Bool
  deriving DecidableEq

/-- Whether the fallback probe finds (and therefore moves to and clicks) some
affordance: the first visible one among the ordered probes. -/
def fallbackProbeClicks (f : FallbackFrame) : Bool :=
  f.verifyBtn || f.nextBtn || f.submitBtn || f.skipBtn ||
    f.recaptchaVerifyBtn || f.hcaptchaSubmitBtn

/-- Whether executeClick actually resolves a target and clicks: it returns
early (warning, no click) when the action has neither target_bounding_box nor
target_coordinates (solver.ts lines 683-686). -/
def clickHasTarget (a : ClickAction) : Bool :=
  a.target_bounding_box.isSome || a.target_coordinates.isSome

/-- Result of the action-execution phase of solveSingle.  didInteract is the
performedAction flag the code returns; fallbackRan records whether the
verify/next/submit/skip probe was entered; realInteraction is the
instrumentation predicate of the specification: a click at a resolved target,
a positive-duration wait, or a fallback-probe click actually happened. -/
structure ExecOutcome where
  didInteract : Bool
  fallbackRan : Bool
  realInteraction : Bool
  deriving DecidableEq

/-- The action loop of solveSingle (solver.ts lines 164-177), threading
(performedAction, realInteraction).  A click entry sets performedAction := true
unconditionally after calling executeClick (which silently no-ops without a
target); a wait entry sets it only when duration_ms > 0. -/
def execActions : List CaptchaAction → Bool × Bool → Bool × Bool
  | [], s => s
  | .click a :: rest, (_, ri) => execActions rest (true, ri || clickHasTarget a)
  | .wait d :: rest, (pa, ri) =>
      if 0 < d then execActions rest (true, true) else execActions rest (pa, ri)

/-- The execution phase of solveSingle (solver.ts lines 141-234): run the
action loop; if performedAction is still false afterwards and the element has a
content frame, run the fallback probe, counting a probe click as interaction.
Returns the instrumented outcome whose didInteract field is the returned flag. -/
def solveSingleModel (contentFrame : Option FallbackFrame) (actions : SolverResult) :
    ExecOutcome :=
  let s := execActions actions.toList (false, false)
  let pa := s.1
  let ri := s.2
  if pa then ⟨pa, false, ri⟩
  else
    match contentFrame with
    | none => ⟨pa, false, ri⟩
    | some f =>
        let clicked := fallbackProbeClicks f
        ⟨pa || clicked, true, ri || clicked⟩

/-- Result of one page.$ selector query in detectCaptcha: none if no element
matched, some v if an element matched with isVisible() = v. -/
def isVisible : Option Bool → Bool
  | some v => v
  | none => false

/-- Abstraction of the page as seen by detectCaptcha: the outcome of each of
its seven selector queries plus the three suppression probes
(isRecaptchaAnchorChecked and the two hidden-response-field checks). -/
structure PageModel where
  recaptchaChallenge : Option Bool
  hcaptchaChallengeSrc : Option Bool
  hcaptchaChallengeTitle : Option Bool
  recaptchaCheckbox : Option Bool
  recaptchaAnchorChecked : Bool
  hcaptchaCheckbox : Option Bool
  hcaptchaTokenNonEmpty : Bool
  cloudflareIframe : Option Bool
  cloudflareContainer : Option Bool
  turnstileTokenNonEmpty : Bool
  deriving DecidableEq

/-- Which provider rule of detectCaptcha matched. -/
inductive Surface where
  | recaptchaChallenge
  | hcaptchaChallengeSrc
  | hcaptchaChallengeTitle
  | recaptchaCheckbox
  | hcaptchaCheckbox
  | cloudflareIframe
  | cloudflareContainer
  deriving DecidableEq

/-- detectCaptcha (solver.ts lines 323-371).  The source is a sequence of
early returns; a rule whose surface is found and visible but whose suppression
probe fires (checked reCAPTCHA anchor, or an hCaptcha/Turnstile hidden response
field already holding a token) falls through to the next rule, so each source
block "if (found and visible) then if (not suppressed) return surface" is
the guard (visible and not suppressed) of one else-if link here. -/
def detectCaptcha (p : PageModel) : Option Surface :=
  if isVisible p.recaptchaChallenge then some .recaptchaChallenge
  else if isVisible p.hcaptchaChallengeSrc then some .hcaptchaChallengeSrc
  else if isVisible p.hcaptchaChallengeTitle then some .hcaptchaChallengeTitle
  else if isVisible p.recaptchaCheckbox && !p.recaptchaAnchorChecked then
    some .recaptchaCheckbox
  else if isVisible p.hcaptchaCheckbox && !p.hcaptchaTokenNonEmpty then
    some .hcaptchaCheckbox
  else if isVisible p.cloudflareIframe && !p.turnstileTokenNonEmpty then
    some .cloudflareIframe
  else if isVisible p.cloudflareContainer && !p.turnstileTokenNonEmpty then
    some .cloudflareContainer
  else none

/-- Specification-side rule list: the fixed priority order claimed for
detectCaptcha. -/
def providerRuleOrder : List Surface :=
  [.recaptchaChallenge, .hcaptchaChallengeSrc, .hcaptchaChallengeTitle,
   .recaptchaCheckbox, .hcaptchaCheckbox, .cloudflareIframe, .cloudflareContainer]

/-- Specification-side predicate: a rule fires when its surface is found,
visible and not suppressed (checked checkbox sub-element for the reCAPTCHA
anchor, non-empty hidden response token for hCaptcha and Turnstile). -/
def ruleActive (p : PageModel) : Surface → Bool
  | .recaptchaChallenge => isVisible p.recaptchaChallenge
  | .hcaptchaChallengeSrc => isVisible p.hcaptchaChallengeSrc
  | .hcaptchaChallengeTitle => isVisible p.hcaptchaChallengeTitle
  | .recaptchaCheckbox => isVisible p.recaptchaCheckbox && !p.recaptchaAnchorChecked
  | .hcaptchaCheckbox => isVisible p.hcaptchaCheckbox && !p.hcaptchaTokenNonEmpty
  | .cloudflareIframe => isVisible p.cloudflareIframe && !p.turnstileTokenNonEmpty
  | .cloudflareContainer => isVisible p.cloudflareContainer && !p.turnstileTokenNonEmpty

/-- Target-point computation of executeClick (solver.ts lines 648-689).
rx, ry model the two Math.random() draws (each in [0,1)); the 0.1 padding
factor of the source is the rational 1/10.  Returns none exactly when the
action carries neither a bounding box nor coordinates (the warn-and-return
branch). -/
def executeClickPoint (rx ry : Rat) (action : ClickAction) (elementBox : ElementBox) :
    Option (Rat × Rat) :=
  match action.target_bounding_box with
  | some (minX, minY, maxX, maxY) =>
      let pixelMinX := minX * elementBox.width
      let pixelMaxX := maxX * elementBox.width
      let pixelMinY := minY * elementBox.height
      let pixelMaxY := maxY * elementBox.height
      let paddingX := (pixelMaxX - pixelMinX) * (1/10)
      let paddingY := (pixelMaxY - pixelMinY) * (1/10)
      let safeMinX := pixelMinX + paddingX
      let safeMaxX := pixelMaxX - paddingX
      let safeMinY := pixelMinY + paddingY
      let safeMaxY := pixelMaxY - paddingY
      let relativeX := safeMinX + rx * (safeMaxX - safeMinX)
      let relativeY := safeMinY + ry * (safeMaxY - safeMinY)
      some (elementBox.x + relativeX, elementBox.y + relativeY)
  | none =>
      match action.target_coordinates with
      | some (xPct, yPct) =>
          some (elementBox.x + xPct * elementBox.width,
                elementBox.y + yPct * elementBox.height)
      | none => none

/-- TimedVector from solver.ts: a waypoint with an optional cumulative target
timestamp (ms from replay start). -/
structure TimedVector where
  x : Rat
  y : Rat
  timestamp : Option Rat
  deriving DecidableEq

/-- Viewport dimensions used for clamping in tracePath. -/
structure Viewport where
  width : Rat
  height : Rat
  deriving DecidableEq

/-- One iteration of the tracePath loop as observed from outside: the clamped
position written to the pointer state, and whether the loop slept before the
next waypoint. -/
structure TraceStep where
  x : Rat
  y : Rat
  slept : Bool
  deriving DecidableEq

/-- Math.max(0, Math.min(v, dimension)) from tracePath. -/
def clampCoord (v hi : Rat) : Rat := max 0 (min v hi)

/-- The waypoint loop of tracePath (solver.ts lines 613-645) on the completed
(no page/session-closed early termination) path.  `now i` is the Date.now()
reading when waypoint i computes its delay; startTime is the Date.now() taken
before the loop.  Each step clamps both axes into the viewport, writes the
clamped point to the pointer state, and sleeps exactly when
startTime + timestamp - now is positive.  Returns the final pointer state and
the list of steps. -/
def tracePathGo (vp : Viewport) (startTime : Rat) (now : Nat → Rat) :
    Nat → List TimedVector → Vector → Vector × List TraceStep
  | _, [], pos => (pos, [])
  | i, v :: rest, _ =>
      let clampedX := clampCoord v.x vp.width
      let clampedY := clampCoord v.y vp.height
      let slept := match v.timestamp with
        | some ts => decide (0 < startTime + ts - now i)
        | none => false
      let r := tracePathGo vp startTime now (i+1) rest ⟨clampedX, clampedY⟩
      (r.1, ⟨clampedX, clampedY, slept⟩ :: r.2)

/-- tracePath entry point: the loop starts at waypoint index 0 from the current
pointer state. -/
def tracePath (vp : Viewport) (startTime : Rat) (now : Nat → Rat)
    (vectors : List TimedVector) (startPos : Vector) : Vector × List TraceStep :=
  tracePathGo vp startTime now 0 vectors startPos

/-- The message of the wall-clock-timeout throw in solve (solver.ts line 79). -/
def timeoutMsg (overallSolveTimeoutMs attempt maxSolveLoops : Nat) : String :=
  "Captcha solve timed out after " ++ toString overallSolveTimeoutMs ++
    "ms (attempt " ++ toString attempt ++ "/" ++ toString maxSolveLoops ++ ")."

/-- The message of the stall throw in solve (solver.ts line 110). -/
def stallMsg (u : AggregatedUsage) : String :=
  ("Captcha still detected but solver performed no interactions; " ++
    "aborting to avoid an infinite loop. Total usage: ") ++ serializeAggregated u

/-- The message of the iteration-cap throw in solve (solver.ts line 114). -/
def capMsg (maxSolveLoops : Nat) (u : AggregatedUsage) : String :=
  ("Captcha still detected after " ++ toString maxSolveLoops ++
    " solve loops. Total usage: ") ++ serializeAggregated u

/-- Outcome of a solve call.  Each constructor corresponds to one exit of
solve: the success return, or one of the three throw statements, with the
thrown message.  cycles counts the decide/execute cycles (solveSingle calls,
one decision-service call each) performed; usage is the cumulative token-usage
list at exit. -/
inductive SolveOutcome where
  | success (cycles : Nat) (usage : List TokenUsage)
  | errTimeout (cycles : Nat) (msg : String) (usage : List TokenUsage)
  | errStall (cycles : Nat) (msg : String) (usage : List TokenUsage)
  | errCap (cycles : Nat) (msg : String) (usage : List TokenUsage)
  deriving DecidableEq

/-- Configuration values read by solve, after defaulting. -/
structure SolveConfig where
  maxSolveLoops : Nat
  overallSolveTimeoutMs : Nat
  deriving DecidableEq

/-- Environment of one solve run: detects q is the result of the q-th
detectCaptcha call (counting from 0, two calls per loop iteration); interacts i
and usages i are the didInteract flag and token-usage list returned by the i-th
solveSingle call (counting from 0); timedOut a is whether
Date.now() - start > overallSolveTimeoutMs held at the top of loop iteration a
(counting from 1). -/
structure SolveEnv where
  detects : Nat → Bool
  interacts : Nat → Bool
  usages : Nat → List TokenUsage
  timedOut : Nat → Bool

/-- The for-loop of solve (solver.ts lines 77-115), fuel = remaining loop
iterations.  Exhausted fuel is the fall-through to the iteration-cap throw.
Each iteration: deadline check, detect (absent => success), decide/execute
(solveSingle), accumulate usage, settle, re-detect (absent => success), stall
check, next iteration. -/
def solveGo (cfg : SolveConfig) (env : SolveEnv) :
    Nat → Nat → Nat → List TokenUsage → Nat → SolveOutcome
  | 0, _, _, cum, cycles =>
      .errCap cycles (capMsg cfg.maxSolveLoops (aggregateTokenUsage cum)) cum
  | fuel+1, attempt, q, cum, cycles =>
      if env.timedOut attempt then
        .errTimeout cycles (timeoutMsg cfg.overallSolveTimeoutMs attempt cfg.maxSolveLoops) cum
      else if env.detects q then
        let di := env.interacts cycles
        let cum2 := cum ++ env.usages cycles
        if env.detects (q+1) then
          if di then solveGo cfg env fuel (attempt+1) (q+2) cum2 (cycles+1)
          else .errStall (cycles+1) (stallMsg (aggregateTokenUsage cum2)) cum2
        else .success (cycles+1) cum2
      else .success cycles cum

/-- solve (solver.ts lines 55-115): loop iterations run from attempt 1 with no
detect calls, no usage and no cycles consumed yet. -/
def solveModel (cfg : SolveConfig) (env : SolveEnv) : SolveOutcome :=
  solveGo cfg env cfg.maxSolveLoops 1 0 [] 0

/-- Specification-side predicate on a solve outcome: if it is a cap-exhaustion
or stall failure, its message contains the serialization of the accumulated
aggregated usage. -/
def failureMsgCarriesUsage : SolveOutcome → Prop
  | .errCap _ m us =>
      strContains m (serializeAggregated (aggregateTokenUsage us)) = true
  | .errStall _ m us =>
      strContains m (serializeAggregated (aggregateTokenUsage us)) = true
  | _ => True

/-! Concrete fixtures used by counterexamples and witnesses. -/

/-- A content frame in which every fallback affordance is present and visible. -/
def fallbackAllAvailable : FallbackFrame := ⟨true, true, true, true, true, true⟩

/-- A sample usage record (100 input and 50 output tokens). -/
def usageSample : TokenUsage := ⟨100, 50, none, "gemini-2.5-flash-lite"⟩

/-- A sample challenge-surface bounding box at (10, 20), 100 wide, 200 high. -/
def ebSample : ElementBox := ⟨10, 20, 100, 200⟩

/-- Run that times out at the top of attempt 2, after one cycle that consumed
one usage record; the challenge always stays detected. -/
def envTimeoutRun : SolveEnv :=
  ⟨fun _ => true, fun _ => true, fun i => if i = 0 then [usageSample] else [],
   fun a => decide (a = 2)⟩

/-- Locator answers: present on exactly the first 2 queries, absent after. -/
def envPresentTwice : SolveEnv :=
  ⟨fun q => decide (q < 2), fun _ => true, fun _ => [], fun _ => false⟩

/-- Locator answers: present on exactly the first query, absent after. -/
def envPresentOnce : SolveEnv :=
  ⟨fun q => decide (q < 1), fun _ => true, fun _ => [], fun _ => false⟩

/-- Challenge always detected, executor never interacts: the stall scenario. -/
def envStallRun : SolveEnv :=
  ⟨fun _ => true, fun _ => false, fun _ => [], fun _ => false⟩

/-- Challenge always detected, executor always interacts: cap exhaustion. -/
def envCapRun : SolveEnv :=
  ⟨fun _ => true, fun _ => true, fun _ => [], fun _ => false⟩

/-- Default viewport of tracePath. -/
def vpSample : Viewport := ⟨1920, 1080⟩

/-- Two waypoints, one overshooting both axes with a timestamp, one inside the
viewport without a timestamp. -/
def vectorsSample : List TimedVector := [⟨-5, 2000, some 10⟩, ⟨3, 4, none⟩]

/-! Helper lemmas. -/

theorem isPrefixOf_self (l : List Char) : l.isPrefixOf l = true := by
  induction l with
  | nil => rfl
  | cons c t ih => simp [List.isPrefixOf, ih]

theorem strContainsAux_append (a b : List Char) :
    strContainsAux b (a ++ b) = true := by
  induction a with
  | nil =>
      cases b with
      | nil => rfl
      | cons c t => simp [strContainsAux, isPrefixOf_self]
  | cons c t ih => simp [strContainsAux, ih]

theorem strContains_append (a b : String) : strContains (a ++ b) b = true := by
  have hd : (a ++ b).toList = a.toList ++ b.toList := by
    simp [String.toList, String.data_append]
  simp [strContains, hd, strContainsAux_append]

theorem parseCliLines_skip (ls : List ParsedLine)
    (h : ∀ l ∈ ls, l = ParsedLine.notJson ∨ l = ParsedLine.otherJson)
    (a : SolverResult) (u : List TokenUsage) :
    parseCliLines ls a u = (a, u) := by
  induction ls with
  | nil => rfl
  | cons hd tl ih =>
      have htl : ∀ l ∈ tl, l = ParsedLine.notJson ∨ l = ParsedLine.otherJson :=
        fun l hl => h l (List.mem_cons_of_mem _ hl)
      rcases h hd (List.mem_cons_self _ _) with h1 | h1 <;> subst h1 <;> exact ih htl

/-! Claim theorems. -/

/-- C1, counterexample to the claim as stated: the stdout "garbage" is
non-empty and contains no parseable payload (every line classifies as
non-JSON), yet getSolution does not raise: it returns Except.ok with an empty
action plan and empty token usage. -/
theorem getSolution_unparseable_returns_ok :
    ¬(trimChars "garbage".toList = []) ∧
    getSolution (fun _ => ParsedLine.notJson) "garbage" "" =
      .ok ⟨SolverResult.list [], []⟩ :=
  ⟨by decide, rfl⟩

/-- C1, amended: empty (whitespace-only) standard output is a fatal error for
that iteration (getSolution raises); but non-empty standard output in which no
line parses to a recognized payload is not fatal: getSolution returns an empty
action plan with empty token usage, and the iteration falls through to the
executor fallback probe. -/
theorem getSolution_empty_fatal_unparseable_empty_plan
    (classify : List Char → ParsedLine) (stdout stderr : String)
    (h : ∀ line ∈ splitLinesChars (trimChars stdout.toList),
        classify line = ParsedLine.notJson ∨ classify line = ParsedLine.otherJson) :
    (trimChars stdout.toList = [] →
      ∃ msg, getSolution classify stdout stderr = .error msg) ∧
    (trimChars stdout.toList ≠ [] →
      getSolution classify stdout stderr = .ok ⟨SolverResult.list [], []⟩) := by
  constructor
  · intro he
    refine ⟨"Failed to execute captcha solver CLI: " ++
      "CLI returned empty output. Stderr: " ++ stderr, ?_⟩
    simp only [String.toList] at he
    simp [getSolution, he]
  · intro hne
    have hmap : ∀ l ∈ (splitLinesChars (trimChars stdout.toList)).map classify,
        l = ParsedLine.notJson ∨ l = ParsedLine.otherJson := by
      intro l hl
      rcases List.mem_map.mp hl with ⟨x, hx, rfl⟩
      exact h x hx
    simp only [String.toList] at hne hmap
    simp [getSolution, hne, parseCliLines_skip _ hmap]

/-- Witness for the amended C1 theorem at stdout "x". -/
theorem getSolution_empty_fatal_unparseable_empty_plan_witness :
    (∀ line ∈ splitLinesChars (trimChars "x".toList),
        (fun _ => ParsedLine.notJson) line = ParsedLine.notJson ∨
        (fun _ => ParsedLine.notJson) line = ParsedLine.otherJson) ∧
    ((trimChars "x".toList = [] →
        ∃ msg, getSolution (fun _ => ParsedLine.notJson) "x" "" = .error msg) ∧
     (trimChars "x".toList ≠ [] →
        getSolution (fun _ => ParsedLine.notJson) "x" "" =
          .ok ⟨SolverResult.list [], []⟩)) :=
  ⟨fun _ _ => Or.inl rfl,
   getSolution_empty_fatal_unparseable_empty_plan _ "x" "" (fun _ _ => Or.inl rfl)⟩

/-- C2, evaluation at the failing input: a plan consisting of one click entry
with neither target_bounding_box nor target_coordinates (so no entry is
actionable) makes solveSingle report didInteract = true while skipping the
fallback probe entirely and performing no real interaction, even though every
fallback affordance is present and visible. -/
theorem solveSingle_noop_click_eval :
    solveSingleModel (some fallbackAllAvailable)
      (SolverResult.list [CaptchaAction.click ⟨none, none, none⟩]) =
      ⟨true, false, false⟩ := rfl

/-- C8: for a click action with normalized target_coordinates (x, y) in [0,1],
the computed absolute point is exactly (elementBox.x + x * width,
elementBox.y + y * height), for every pair of Math.random() draws, i.e. with
no padding and no randomization. -/
theorem executeClick_coordinates_exact (rx ry x y : Rat) (tn : Option Int)
    (eb : ElementBox) (hx0 : 0 ≤ x) (hx1 : x ≤ 1) (hy0 : 0 ≤ y) (hy1 : y ≤ 1) :
    executeClickPoint rx ry ⟨tn, none, some (x, y)⟩ eb =
      some (eb.x + x * eb.width, eb.y + y * eb.height) := rfl

/-- Witness for C8 at (x, y) = (1/2, 1/4) on the sample surface box. -/
theorem executeClick_coordinates_exact_witness :
    ((0:Rat) ≤ 1/2 ∧ (1/2:Rat) ≤ 1 ∧ (0:Rat) ≤ 1/4 ∧ (1/4:Rat) ≤ 1) ∧
    executeClickPoint (1/3) (2/3) ⟨none, none, some (1/2, 1/4)⟩ ebSample =
      some (ebSample.x + (1/2) * ebSample.width,
            ebSample.y + (1/4) * ebSample.height) :=
  ⟨⟨by norm_num, by norm_num, by norm_num, by norm_num⟩,
   executeClick_coordinates_exact (1/3) (2/3) (1/2) (1/4) none ebSample
     (by norm_num) (by norm_num) (by norm_num) (by norm_num)⟩

/-- C10: when a click action carries both a target_bounding_box and
target_coordinates, the bounding box takes precedence and the coordinates are
ignored entirely: the computed point is identical to the one for the same
action with the coordinates removed (the padded-random-box rule). -/
theorem executeClick_box_precedence (rx ry minX minY maxX maxY : Rat)
    (tn tn2 : Option Int) (coords : Rat × Rat) (eb : ElementBox) :
    executeClickPoint rx ry ⟨tn, some (minX, minY, maxX, maxY), some coords⟩ eb =
      executeClickPoint rx ry ⟨tn2, some (minX, minY, maxX, maxY), none⟩ eb := rfl

/-- C7: for a click action with a normalized target_bounding_box
[minX, minY, maxX, maxY] in [0,1] with minX ≤ maxX and minY ≤ maxY, the
chosen surface-relative point lies within the pixel rectangle obtained by
scaling the box by the surface width/height and shrinking it 10 percent inward
on each axis; a degenerate axis yields exactly the single scaled coordinate
(no exception path exists); and the absolute point is the surface origin plus
the relative point. -/
theorem executeClick_box_padded (rx ry minX minY maxX maxY : Rat)
    (tn : Option Int) (tc : Option (Rat × Rat)) (eb : ElementBox)
    (h0x : 0 ≤ minX) (hxx : minX ≤ maxX) (h1x : maxX ≤ 1)
    (h0y : 0 ≤ minY) (hyy : minY ≤ maxY) (h1y : maxY ≤ 1)
    (hw : 0 ≤ eb.width) (hh : 0 ≤ eb.height)
    (hrx0 : 0 ≤ rx) (hrx1 : rx < 1) (hry0 : 0 ≤ ry) (hry1 : ry < 1) :
    ∃ relX relY,
      executeClickPoint rx ry ⟨tn, some (minX, minY, maxX, maxY), tc⟩ eb =
        some (eb.x + relX, eb.y + relY) ∧
      minX * eb.width + (maxX * eb.width - minX * eb.width) * (1/10) ≤ relX ∧
      relX ≤ maxX * eb.width - (maxX * eb.width - minX * eb.width) * (1/10) ∧
      minY * eb.height + (maxY * eb.height - minY * eb.height) * (1/10) ≤ relY ∧
      relY ≤ maxY * eb.height - (maxY * eb.height - minY * eb.height) * (1/10) ∧
      (minX = maxX → relX = minX * eb.width) ∧
      (minY = maxY → relY = minY * eb.height) := by
  have hdx : 0 ≤ (maxX - minX) * eb.width := mul_nonneg (by linarith) hw
  have hdy : 0 ≤ (maxY - minY) * eb.height := mul_nonneg (by linarith) hh
  have hpx : 0 ≤ rx * ((maxX - minX) * eb.width) := mul_nonneg hrx0 hdx
  have hpy : 0 ≤ ry * ((maxY - minY) * eb.height) := mul_nonneg hry0 hdy
  have hqx : 0 ≤ (1 - rx) * ((maxX - minX) * eb.width) :=
    mul_nonneg (by linarith) hdx
  have hqy : 0 ≤ (1 - ry) * ((maxY - minY) * eb.height) :=
    mul_nonneg (by linarith) hdy
  refine ⟨_, _, rfl, ?_, ?_, ?_, ?_, ?_, ?_⟩
  · nlinarith [hpx]
  · nlinarith [hqx]
  · nlinarith [hpy]
  · nlinarith [hqy]
  · intro hde
    subst hde
    ring
  · intro hde
    subst hde
    ring

/-- Witness for C7 at the box [1/4, 1/4, 3/4, 1/2] on the sample surface box
with both random draws equal to 1/2. -/
theorem executeClick_box_padded_witness :
    ((0:Rat) ≤ 1/4 ∧ (1/4:Rat) ≤ 3/4 ∧ (3/4:Rat) ≤ 1 ∧ (0:Rat) ≤ 1/2 ∧
     (1/2:Rat) < 1 ∧ 0 ≤ ebSample.width ∧ 0 ≤ ebSample.height) ∧
    (∃ relX relY,
      executeClickPoint (1/2) (1/2) ⟨none, some (1/4, 1/4, 3/4, 1/2), none⟩ ebSample =
        some (ebSample.x + relX, ebSample.y + relY) ∧
      (1/4) * ebSample.width + ((3/4) * ebSample.width - (1/4) * ebSample.width) * (1/10) ≤ relX ∧
      relX ≤ (3/4) * ebSample.width - ((3/4) * ebSample.width - (1/4) * ebSample.width) * (1/10) ∧
      (1/4) * ebSample.height + ((1/2) * ebSample.height - (1/4) * ebSample.height) * (1/10) ≤ relY ∧
      relY ≤ (1/2) * ebSample.height - ((1/2) * ebSample.height - (1/4) * ebSample.height) * (1/10) ∧
      ((1/4 : Rat) = 3/4 → relX = (1/4) * ebSample.width) ∧
      ((1/4 : Rat) = 1/2 → relY = (1/4) * ebSample.height)) :=
  ⟨⟨by norm_num, by norm_num, by norm_num, by norm_num, by norm_num,
    by norm_num [ebSample], by norm_num [ebSample]⟩,
   executeClick_box_padded (1/2) (1/2) (1/4) (1/4) (3/4) (1/2) none none ebSample
     (by norm_num) (by norm_num) (by norm_num) (by norm_num) (by norm_num)
     (by norm_num) (by norm_num [ebSample]) (by norm_num [ebSample])
     (by norm_num) (by norm_num) (by norm_num) (by norm_num)⟩

/-- C6: detectCaptcha evaluates its provider rules in the fixed priority order
(reCAPTCHA challenge frame; hCaptcha challenge frame by URL, then by title;
reCAPTCHA anchor checkbox; hCaptcha checkbox; Turnstile iframe, then its
container) and returns exactly the first rule whose surface is found, visible
and not suppressed; visible-but-suppressed and invisible surfaces are skipped
with the search continuing, and with no active rule it returns none. -/
theorem detectCaptcha_first_active_rule (p : PageModel) :
    detectCaptcha p = providerRuleOrder.find? (ruleActive p) := by
  unfold detectCaptcha providerRuleOrder
  simp only [List.find?, ruleActive]
  cases isVisible p.recaptchaChallenge <;>
    cases isVisible p.hcaptchaChallengeSrc <;>
    cases isVisible p.hcaptchaChallengeTitle <;>
    cases (isVisible p.recaptchaCheckbox && !p.recaptchaAnchorChecked) <;>
    cases (isVisible p.hcaptchaCheckbox && !p.hcaptchaTokenNonEmpty) <;>
    cases (isVisible p.cloudflareIframe && !p.turnstileTokenNonEmpty) <;>
    cases (isVisible p.cloudflareContainer && !p.turnstileTokenNonEmpty) <;>
    rfl

/-- Every cap-exhaustion or stall exit of the solve loop embeds the serialized
aggregated usage in its message, from any loop state. -/
theorem solveGo_failure_carries_usage (cfg : SolveConfig) (env : SolveEnv) :
    ∀ fuel attempt q cum cycles,
      failureMsgCarriesUsage (solveGo cfg env fuel attempt q cum cycles) := by
  intro fuel
  induction fuel with
  | zero =>
      intro attempt q cum cycles
      simp only [solveGo, failureMsgCarriesUsage, capMsg]
      exact strContains_append _ _
  | succ n ih =>
      intro attempt q cum cycles
      simp only [solveGo]
      cases hT : env.timedOut attempt
      · simp only [Bool.false_eq_true, if_false]
        cases hD : env.detects q
        · simp [failureMsgCarriesUsage]
        · simp only [if_true]
          cases hD1 : env.detects (q + 1)
          · simp [failureMsgCarriesUsage]
          · cases hI : env.interacts cycles
            · simp only [Bool.false_eq_true, if_false, if_true,
                failureMsgCarriesUsage, stallMsg]
              exact strContains_append _ _
            · simpa using ih (attempt + 1) (q + 2) (cum ++ env.usages cycles) (cycles + 1)
      · simp [failureMsgCarriesUsage]

/-- C4, counterexample to the claim as stated: a run that hits the wall-clock
deadline at the top of attempt 2 with one usage record already accumulated
raises the timeout error, whose message does not contain the serialized
aggregated usage (unlike the cap and stall failures). -/
theorem solve_timeout_msg_lacks_usage :
    solveModel ⟨10, 100⟩ envTimeoutRun =
      .errTimeout 1 (timeoutMsg 100 2 10) [usageSample] ∧
    ([usageSample] : List TokenUsage) ≠ [] ∧
    strContains (timeoutMsg 100 2 10)
      (serializeAggregated (aggregateTokenUsage [usageSample])) = false :=
  ⟨rfl, by decide, by decide⟩

/-- C4, amended: failures of solve by iteration-cap exhaustion (and stalls)
raise an error whose human-readable message carries the serialized aggregated
token usage accumulated so far; the wall-clock-timeout failure carries a
human-readable message (timeout, attempt and cap numbers) without the usage. -/
theorem solve_cap_and_stall_carry_usage (cfg : SolveConfig) (env : SolveEnv)
    (c : Nat) (m : String) (us : List TokenUsage)
    (h : solveModel cfg env = .errCap c m us ∨
         solveModel cfg env = .errStall c m us) :
    strContains m (serializeAggregated (aggregateTokenUsage us)) = true := by
  have hm := solveGo_failure_carries_usage cfg env cfg.maxSolveLoops 1 0 [] 0
  rcases h with h | h <;> simp only [solveModel] at h <;> rw [h] at hm <;> exact hm

/-- Witness for the amended C4 theorem: a run with maxSolveLoops = 1 that
keeps detecting the challenge exhausts the cap, and the serialized usage
occurs in the cap message. -/
theorem solve_cap_and_stall_carry_usage_witness :
    (solveModel ⟨1, 1000⟩ envCapRun =
        .errCap 1 (capMsg 1 (aggregateTokenUsage [])) [] ∨
     solveModel ⟨1, 1000⟩ envCapRun =
        .errStall 1 (capMsg 1 (aggregateTokenUsage [])) []) ∧
    strContains (capMsg 1 (aggregateTokenUsage []))
      (serializeAggregated (aggregateTokenUsage [])) = true :=
  ⟨Or.inl rfl,
   solve_cap_and_stall_carry_usage ⟨1, 1000⟩ envCapRun 1
     (capMsg 1 (aggregateTokenUsage [])) [] (Or.inl rfl)⟩

/-- C5: when the locator still finds a challenge surface after the settling
delay and the just-finished execution reported didInteract = false, solve
raises the stall failure at that first post-settling re-detection, after
exactly one decide/execute cycle, for every configured maxSolveLoops of at
least one iteration. -/
theorem solve_stall_after_one_cycle (cfg : SolveConfig) (env : SolveEnv)
    (hcap : 1 ≤ cfg.maxSolveLoops)
    (h0 : env.detects 0 = true) (h1 : env.detects 1 = true)
    (hi : env.interacts 0 = false) (ht : env.timedOut 1 = false) :
    solveModel cfg env =
      .errStall 1 (stallMsg (aggregateTokenUsage (env.usages 0))) (env.usages 0) := by
  obtain ⟨n, hn⟩ : ∃ n, cfg.maxSolveLoops = n + 1 :=
    ⟨cfg.maxSolveLoops - 1, by omega⟩
  simp [solveModel, hn, solveGo, ht, h0, h1, hi]

/-- Witness for C5 on the always-present, never-interacting environment. -/
theorem solve_stall_after_one_cycle_witness :
    (1 ≤ (10:Nat) ∧ envStallRun.detects 0 = true ∧ envStallRun.detects 1 = true ∧
     envStallRun.interacts 0 = false ∧ envStallRun.timedOut 1 = false) ∧
    solveModel ⟨10, 120000⟩ envStallRun =
      .errStall 1 (stallMsg (aggregateTokenUsage (envStallRun.usages 0)))
        (envStallRun.usages 0) :=
  ⟨⟨by norm_num, rfl, rfl, rfl, rfl⟩,
   solve_stall_after_one_cycle ⟨10, 120000⟩ envStallRun (by norm_num) rfl rfl rfl rfl⟩

/-- From any loop state with the locator present on exactly the queries below
k, always-true didInteract and no deadline, the loop ends in success after
consuming the remaining present queries two per iteration. -/
theorem solveGo_present_prefix (cfg : SolveConfig) (env : SolveEnv) (k : Nat)
    (hd : ∀ q, env.detects q = decide (q < k))
    (hi : ∀ i, env.interacts i = true)
    (ht : ∀ a, env.timedOut a = false) :
    ∀ fuel q cum cycles attempt, q ≤ k → (k - q) / 2 + 1 ≤ fuel →
      ∃ us, solveGo cfg env fuel attempt q cum cycles =
        .success (cycles + (k - q + 1) / 2) us := by
  intro fuel
  induction fuel with
  | zero =>
      intro q cum cycles attempt hq hf
      omega
  | succ n ih =>
      intro q cum cycles attempt hq hf
      by_cases hqk : q < k
      · have hdq : env.detects q = true := by simp [hd, hqk]
        by_cases hq1 : q + 1 < k
        · have hdq1 : env.detects (q + 1) = true := by simp [hd, hq1]
          obtain ⟨us, hus⟩ :=
            ih (q + 2) (cum ++ env.usages cycles) (cycles + 1) (attempt + 1)
              (by omega) (by omega)
          have hc : cycles + 1 + (k - (q + 2) + 1) / 2 = cycles + (k - q + 1) / 2 := by
            omega
          refine ⟨us, ?_⟩
          rw [hc] at hus
          simpa [solveGo, ht, hdq, hdq1, hi] using hus
        · have hdq1 : env.detects (q + 1) = false := by
            have : ¬(q + 1 < k) := hq1
            simp [hd, this]
          have hc : cycles + 1 = cycles + (k - q + 1) / 2 := by omega
          refine ⟨cum ++ env.usages cycles, ?_⟩
          rw [← hc]
          simp [solveGo, ht, hdq, hdq1, hi]
      · have hdq : env.detects q = false := by
          have : ¬(q < k) := hqk
          simp [hd, this]
        have hc : cycles + (k - q + 1) / 2 = cycles := by omega
        refine ⟨cum, ?_⟩
        rw [hc]
        simp [solveGo, ht, hdq]

/-- C3, counterexample to the claim as stated: with the locator reporting the
challenge present on exactly its first 2 queries (k = 2) and absent after,
always-interacting execution and no deadline, solve returns success after
exactly 1 decide/execute cycle, not k = 2: the locator is consulted twice per
cycle (once when scanning, once after settling). -/
theorem solve_present_two_queries_one_cycle :
    solveModel ⟨10, 120000⟩ envPresentTwice = .success 1 [] ∧ (1 : Nat) ≠ 2 :=
  ⟨rfl, by norm_num⟩

/-- C3, amended: if the locator reports a challenge present on exactly its
first k queries (k ≥ 1) and absent on every query thereafter, each execution
reports didInteract = true and the wall-clock budget never trips, then —
because each loop iteration consumes two locator queries — solve performs
exactly (k + 1) / 2 (that is, the ceiling of k / 2) decide/execute cycles and
returns success, provided maxSolveLoops ≥ k / 2 + 1. -/
theorem solve_present_k_queries_cycles (cfg : SolveConfig) (env : SolveEnv)
    (k : Nat) (hk : 1 ≤ k)
    (hd : ∀ q, env.detects q = decide (q < k))
    (hi : ∀ i, env.interacts i = true)
    (ht : ∀ a, env.timedOut a = false)
    (hcap : k / 2 + 1 ≤ cfg.maxSolveLoops) :
    ∃ us, solveModel cfg env = .success ((k + 1) / 2) us := by
  obtain ⟨us, hus⟩ :=
    solveGo_present_prefix cfg env k hd hi ht cfg.maxSolveLoops 0 [] 0 1
      (by omega) (by omega)
  refine ⟨us, ?_⟩
  simpa [solveModel] using hus

theorem clampCoord_nonneg (v hi : Rat) : 0 ≤ clampCoord v hi := le_max_left 0 _

theorem clampCoord_le_bound (v hi : Rat) (h : 0 ≤ hi) : clampCoord v hi ≤ hi :=
  max_le h (min_le_right v hi)

/-- Every position written by the waypoint loop is clamped into the viewport. -/
theorem tracePathGo_steps_bounded (vp : Viewport) (st : Rat) (now : Nat → Rat)
    (hw : 0 ≤ vp.width) (hh : 0 ≤ vp.height) :
    ∀ (vectors : List TimedVector) (i : Nat) (pos : Vector),
      ∀ s ∈ (tracePathGo vp st now i vectors pos).2,
        0 ≤ s.x ∧ s.x ≤ vp.width ∧ 0 ≤ s.y ∧ s.y ≤ vp.height := by
  intro vectors
  induction vectors with
  | nil =>
      intro i pos s hs
      simp [tracePathGo] at hs
  | cons v rest ih =>
      intro i pos s hs
      simp only [tracePathGo, List.mem_cons] at hs
      rcases hs with rfl | hs
      · exact ⟨clampCoord_nonneg _ _, clampCoord_le_bound _ _ hw,
          clampCoord_nonneg _ _, clampCoord_le_bound _ _ hh⟩
      · exact ih (i + 1) _ s hs

/-- The waypoint loop sleeps at a step exactly when that waypoint has a
timestamp whose cumulative target time is still in the future relative to the
elapsed wall clock at that step. -/
theorem tracePathGo_slept_iff (vp : Viewport) (st : Rat) (now : Nat → Rat) :
    ∀ (vectors : List TimedVector) (i : Nat) (pos : Vector) (idx : Nat)
      (s : TraceStep),
      (tracePathGo vp st now i vectors pos).2.get? idx = some s →
      (s.slept = true ↔
        ∃ v ts, vectors.get? idx = some v ∧ v.timestamp = some ts ∧
          now (i + idx) - st < ts) := by
  intro vectors
  induction vectors with
  | nil =>
      intro i pos idx s hs
      simp [tracePathGo] at hs
  | cons v rest ih =>
      intro i pos idx s hs
      cases idx with
      | zero =>
          simp only [tracePathGo, List.get?, Option.some.injEq] at hs
          subst hs
          constructor
          · intro hslept
            cases hts : v.timestamp with
            | none => rw [hts] at hslept; simp at hslept
            | some ts =>
                refine ⟨v, ts, rfl, hts, ?_⟩
                rw [hts] at hslept
                have hpos := of_decide_eq_true hslept
                simp only [Nat.add_zero]
                linarith
          · rintro ⟨v', ts, hv, hts, hlt⟩
            simp only [List.get?, Option.some.injEq] at hv
            subst hv
            rw [hts]
            refine decide_eq_true ?_
            simp only [Nat.add_zero] at hlt
            linarith
      | succ m =>
          simp only [tracePathGo, List.get?] at hs
          have hrec := ih (i + 1)
            ⟨clampCoord v.x vp.width, clampCoord v.y vp.height⟩ m s hs
          have hidx : i + (m + 1) = (i + 1) + m := by omega
          simpa [List.get?, hidx] using hrec

/-- A completed waypoint loop leaves the pointer at the clamped last waypoint. -/
theorem tracePathGo_final (vp : Viewport) (st : Rat) (now : Nat → Rat) :
    ∀ (vectors : List TimedVector) (i : Nat) (pos : Vector) (v' : TimedVector),
      vectors.getLast? = some v' →
      (tracePathGo vp st now i vectors pos).1 =
        ⟨clampCoord v'.x vp.width, clampCoord v'.y vp.height⟩ := by
  intro vectors
  induction vectors with
  | nil =>
      intro i pos v' h
      simp at h
  | cons v rest ih =>
      intro i pos v' h
      cases rest with
      | nil =>
          simp only [List.getLast?_singleton, Option.some.injEq] at h
          subst h
          simp [tracePathGo]
      | cons w ws =>
          rw [List.getLast?_cons_cons] at h
          simp only [tracePathGo]
          exact ih (i + 1) ⟨clampCoord v.x vp.width, clampCoord v.y vp.height⟩ v' h

/-- C9: during a tracePath replay, every position written to the pointer state
is clamped into [0, viewport dimension] on both axes; the loop sleeps before
a waypoint exactly when that waypoint's cumulative target timestamp is still
in the future relative to elapsed wall-clock time; and a replay that runs to
completion leaves the pointer state at the clamped final waypoint. -/
theorem tracePath_replay_properties (vp : Viewport) (st : Rat) (now : Nat → Rat)
    (vectors : List TimedVector) (startPos : Vector)
    (hw : 0 ≤ vp.width) (hh : 0 ≤ vp.height) :
    (∀ s ∈ (tracePath vp st now vectors startPos).2,
        0 ≤ s.x ∧ s.x ≤ vp.width ∧ 0 ≤ s.y ∧ s.y ≤ vp.height) ∧
    (∀ idx s, (tracePath vp st now vectors startPos).2.get? idx = some s →
        (s.slept = true ↔
          ∃ v ts, vectors.get? idx = some v ∧ v.timestamp = some ts ∧
            now idx - st < ts)) ∧
    (∀ v', vectors.getLast? = some v' →
        (tracePath vp st now vectors startPos).1 =
          ⟨clampCoord v'.x vp.width, clampCoord v'.y vp.height⟩) := by
  refine ⟨fun s hs =>
      tracePathGo_steps_bounded vp st now hw hh vectors 0 startPos s hs,
    fun idx s hs => ?_,
    fun v' hv => tracePathGo_final vp st now vectors 0 startPos v' hv⟩
  have hrec := tracePathGo_slept_iff vp st now vectors 0 startPos idx s hs
  simpa using hrec

/-- Witness for C9 on a two-waypoint replay with one overshooting timed
waypoint, on the default 1920 by 1080 viewport. -/
theorem tracePath_replay_properties_witness :
    (0 ≤ vpSample.width ∧ 0 ≤ vpSample.height) ∧
    ((∀ s ∈ (tracePath vpSample 0 (fun i => (i : Rat)) vectorsSample ⟨100, 100⟩).2,
        0 ≤ s.x ∧ s.x ≤ vpSample.width ∧ 0 ≤ s.y ∧ s.y ≤ vpSample.height) ∧
     (∀ idx s,
        (tracePath vpSample 0 (fun i => (i : Rat)) vectorsSample ⟨100, 100⟩).2.get? idx =
          some s →
        (s.slept = true ↔
          ∃ v ts, vectorsSample.get? idx = some v ∧ v.timestamp = some ts ∧
            (fun i => (i : Rat)) idx - 0 < ts)) ∧
     (∀ v', vectorsSample.getLast? = some v' →
        (tracePath vpSample 0 (fun i => (i : Rat)) vectorsSample ⟨100, 100⟩).1 =
          ⟨clampCoord v'.x vpSample.width, clampCoord v'.y vpSample.height⟩)) :=
  ⟨⟨by norm_num [vpSample], by norm_num [vpSample]⟩,
   tracePath_replay_properties vpSample 0 (fun i => (i : Rat)) vectorsSample
     ⟨100, 100⟩ (by norm_num [vpSample]) (by norm_num [vpSample])⟩

/-- Witness for the amended C3 theorem at k = 1. -/
theorem solve_present_k_queries_cycles_witness :
    (1 ≤ 1 ∧ (∀ q, envPresentOnce.detects q = decide (q < 1)) ∧
     (∀ i, envPresentOnce.interacts i = true) ∧
     (∀ a, envPresentOnce.timedOut a = false) ∧ 1 / 2 + 1 ≤ (10:Nat)) ∧
    ∃ us, solveModel ⟨10, 120000⟩ envPresentOnce = .success ((1 + 1) / 2) us :=
  ⟨⟨le_refl 1, fun _ => rfl, fun _ => rfl, fun _ => rfl, by norm_num⟩,
   solve_present_k_queries_cycles ⟨10, 120000⟩ envPresentOnce 1 (le_refl 1)
     (fun _ => rfl) (fun _ => rfl) (fun _ => rfl) (by norm_num)⟩

end CaptchaKraken
